import Mathlib

/-!
Shallow embedding of the polaris-viz donut chart
(`src/packages/polaris-viz/src/components/DonutChart/Chart.tsx`), of the
`TooltipContent` component, and of the library helpers they use, together
with theorems settling the specification claims.

Numbers are modelled as exact rationals.  Angles are measured in turns:
the source's `FULL_CIRCLE = Math.PI * 2` radians is one turn.  Every angle
the chart computes is a rational multiple of the full circle, so this
change of unit is an exact linear bijection preserving all ratios,
orderings and the partition structure of the circle.
-/

namespace PolarisViz

/-- A CSS color / series color value, modelled as a string. -/
abbrev Color := String

/-- `DataPoint` from polaris-viz-core: `{key: string; value: number | null}`. -/
structure DataPoint where
  key : String
  value : Option ℚ
deriving Repr, DecidableEq

/-- `DataSeries` from polaris-viz-core: a named series with an optional
color override and a list of data points. -/
structure DataSeries where
  name : String
  color : Option Color := none
  data : List DataPoint
deriving Repr, DecidableEq

/-- `Dimensions` from polaris-viz-core. -/
structure Dimensions where
  height : ℚ
  width : ℚ
deriving Repr, DecidableEq

/-- `ChartState` from polaris-viz-core. -/
inductive ChartState where
  | Success
  | Loading
  | Error
deriving Repr, DecidableEq

/-- `Direction` from polaris-viz-core. -/
inductive Direction where
  | vertical
  | horizontal
deriving Repr, DecidableEq

/-- `const FULL_CIRCLE = Math.PI * 2;` (Chart.tsx line 42), that is one
full turn in the angle unit used throughout this development. -/
def FULL_CIRCLE : ℚ := 1

/-- `const RADIUS_PADDING = 20;` (Chart.tsx line 43). -/
def RADIUS_PADDING : ℚ := 20

/-- `const SMALL_CHART_HEIGHT_THRESHOLD = 150;` (Chart.tsx line 44). -/
def SMALL_CHART_HEIGHT_THRESHOLD : ℚ := 150

/-- `THIN_ARC_CORNER_THICKNESS` from polaris-viz-core.  Its numeric value
is not in the snapshot; no claim depends on it, only on which branch
selects it. -/
def THIN_ARC_CORNER_THICKNESS : ℚ := 2

/-! ## The d3-shape pie layout

`createPie = pie<DataPoint>().value(({value}) => value!).sort(null)`
(Chart.tsx lines 151-153).  Modelled from the spec: the "pie-angle
computation" geometry helper is a "pure function converting a data series
into angle primitives"; the d3-shape source is outside the snapshot.  With
the defaults used here (start angle 0, end angle one full circle, no pad
angle) and `sort(null)` (which disables both the data comparator and the
default descending value sort), d3 assigns consecutive angle intervals in
input order: each datum with positive coerced value receives a span of
`value * k` where `k = fullCircle / sum` and `sum` is the sum of the
positive coerced values; other data receive an empty span. -/

/-- The JS numeric coercion d3 applies to the accessor result
(`+value(...)`): the accessor `({value}) => value!` returns the raw
`number | null` value and `+null` is `0`. -/
def toNum (v : Option ℚ) : ℚ := v.getD 0

/-- One element of the array returned by the d3 pie layout (the fields the
chart reads: `data`, `value`, `startAngle`, `endAngle`). -/
structure PieArcDatum where
  data : DataPoint
  value : ℚ
  startAngle : ℚ
  endAngle : ℚ
deriving Repr, DecidableEq

/-- d3's sum of the positive coerced values
(`if ((v = +value(...)) > 0) sum += v`). -/
def pieSum (points : List DataPoint) : ℚ :=
  points.foldl (fun acc p => if toNum p.value > 0 then acc + toNum p.value else acc) 0

/-- d3's angle-assignment loop: starting at angle `a0`, each datum gets
the interval `[a0, a0 + span)` with `span = v > 0 ? v * k : 0`. -/
def pieArcsAux (k : ℚ) (a0 : ℚ) : List DataPoint → List PieArcDatum
  | [] => []
  | p :: rest =>
      let v := toNum p.value
      let a1 := a0 + (if v > 0 then v * k else 0)
      { data := p, value := v, startAngle := a0, endAngle := a1 } :: pieArcsAux k a1 rest

/-- `createPie(points)`: d3 pie with value accessor `({value}) => value!`
and `sort(null)`, at the default start angle 0 and default full-circle
span (`k = sum ? fullCircle / sum : 0`). -/
def createPie (points : List DataPoint) : List PieArcDatum :=
  let sum := pieSum points
  let k := if sum = 0 then 0 else FULL_CIRCLE / sum
  pieArcsAux k 0 points

/-- `points`: `data.reduce((prev, {data}) => prev.concat(data), [])`
(Chart.tsx lines 146-149). -/
def flattenData (data : List DataSeries) : List DataPoint :=
  data.foldl (fun prev s => prev ++ s.data) []

/-- `points.reduce((acc, {value}) => (value ?? 0) + acc, 0)`
(Chart.tsx line 159). -/
def totalOf (points : List DataPoint) : ℚ :=
  points.foldl (fun acc p => toNum p.value + acc) 0

/-! ### Basic lemmas about the pie layout -/

/-- The sum of the spans handed out from `a0` onwards. -/
def spanSum (k : ℚ) (ps : List DataPoint) : ℚ :=
  (ps.map (fun p => if toNum p.value > 0 then toNum p.value * k else 0)).sum

/-- Consecutive arcs meet: `anglesChain lo hi arcs` says the arcs tile the
interval from `lo` to `hi` in order. -/
def anglesChain (lo hi : ℚ) : List PieArcDatum → Prop
  | [] => lo = hi
  | a :: rest => a.startAngle = lo ∧ anglesChain a.endAngle hi rest

/-! ## Theme resolution and series colors -/

/-- The arc section of a theme (`selectedTheme.arc.thickness`,
`selectedTheme.arc.cornerRadius`). -/
structure ArcTheme where
  thickness : ℚ
  cornerRadius : ℚ
deriving Repr, DecidableEq

/-- The grid section of a theme (`selectedTheme.grid.color`). -/
structure GridTheme where
  color : Color
deriving Repr, DecidableEq

/-- The parts of a polaris-viz theme object the donut chart reads. -/
structure Theme where
  seriesColors : List Color
  arc : ArcTheme
  grid : GridTheme
deriving Repr, DecidableEq

/-- Modelled from the spec: `useTheme()` resolves the chart's theme name
to a theme object from the library's theme registry (the registry is not
in the snapshot); a pure lookup with a default theme. -/
def useTheme (name : String) : Theme :=
  if name = "Light" then
    { seriesColors := ["#0A97D5", "#41778B", "#8DB9C7"]
      arc := { thickness := 24, cornerRadius := 2 }
      grid := { color := "#EBEBEB" } }
  else
    { seriesColors := ["#7F4AFA", "#3672BB", "#4D7E3E"]
      arc := { thickness := 24, cornerRadius := 2 }
      grid := { color := "#333344" } }

/-- Modelled from the spec: the Theme/Color resolver "maps a named palette
and series count to a deterministic ordered list of colors"
(`getSeriesColors(seriesCount, selectedTheme)` from `../../hooks`; its
source is not in the snapshot).  Modelled as cycling the theme's palette
to produce exactly `count` colors. -/
def getSeriesColors (count : Nat) (theme : Theme) : List Color :=
  (List.range count).map fun i =>
    theme.seriesColors.getD (i % max theme.seriesColors.length 1) ""

/-- `clamp({amount: data.length, min: 1, max: Infinity})`
(Chart.tsx lines 90-94): the series count is the data length clamped
below by 1. -/
def seriesCountOf (data : List DataSeries) : Nat := max data.length 1

/-! ## Legend negotiation -/

/-- `legendPosition === 'right' || legendPosition === 'left' ? 'vertical'
: 'horizontal'` (Chart.tsx lines 98-101). -/
def legendDirectionOf (legendPosition : String) : Direction :=
  if legendPosition = "right" ∨ legendPosition = "left" then .vertical else .horizontal

/-- The legend's own measured dimensions, reported back through
`setLegendDimensions`. -/
structure LegendDimensions where
  height : ℚ := 0
  width : ℚ := 0
deriving Repr, DecidableEq

/-- One legend item as produced by the legend negotiator. -/
structure LegendItem where
  name : String
  color : Color
deriving Repr, DecidableEq

/-- What `useLegend` returns to the chart. -/
structure UseLegendResult where
  height : ℚ
  width : ℚ
  legend : List LegendItem
  isLegendMounted : Bool
deriving Repr, DecidableEq

/-- One legend item per series, colored positionally. -/
def legendItemsOf (data : List DataSeries) (colors : List Color) : List LegendItem :=
  data.enum.map fun pr => { name := pr.2.name, color := colors.getD pr.1 "" }

/-- Modelled from the spec: the legend layout negotiator (`useLegend` from
`../../components/LegendContainer`; its source is not in the snapshot)
"measures available space, decides legend position/overflow, and reports
its own measured dimensions back to the chart (a measure-then-render
feedback loop)".  Modelled: when the legend is shown it reserves the
legend's measured width (vertical legends, capped at the chart's
`maxWidth`) or height (horizontal legends) out of the chart's dimensions
and exposes the remainder as the drawable area, together with one legend
item per series; the measured legend dimensions and the mounted flag are
component state, fed back through `setLegendDimensions`. -/
def useLegend (data : List DataSeries) (dimensions : Dimensions)
    (showLegend : Bool) (direction : Direction) (colors : List Color)
    (maxWidth : ℚ) (legendDims : LegendDimensions) (legendMounted : Bool) :
    UseLegendResult :=
  if showLegend then
    { height := if direction = .horizontal then dimensions.height - legendDims.height
                else dimensions.height
      width := if direction = .vertical then
                 dimensions.width - min legendDims.width (max maxWidth 0)
               else dimensions.width
      legend := legendItemsOf data colors
      isLegendMounted := legendMounted }
  else
    { height := dimensions.height
      width := dimensions.width
      legend := legendItemsOf data colors
      isLegendMounted := true }

/-! ## Chart props, component state and color-vision events -/

/-- The props of the donut `Chart` component (Chart.tsx lines 46-64).
The formatter props and the render-prop callbacks are functions whose
output the claims never inspect; for the render props only their presence
matters (`renderLegendContent` toggles which legend content is used), so
they are modelled by presence flags. -/
structure ChartProps where
  data : List DataSeries
  legendPosition : String := "right"
  showLegend : Bool
  showLegendValues : Bool
  state : ChartState
  theme : String
  accessibilityLabel : String := ""
  dimensions : Dimensions := { height := 0, width := 0 }
  errorText : Option String := none
  legendFullWidth : Bool := false
  hasRenderInnerValueContent : Bool := false
  hasRenderLegendContent : Bool := false
  total : Option ℚ := none
deriving Repr, DecidableEq

/-- Component-local react state of the donut `Chart`:
`const [activeIndex, setActiveIndex] = useState<number>(-1)`
(Chart.tsx line 87) plus the legend measurement state owned by
`useLegend`. -/
structure ChartInternalState where
  activeIndex : Int := -1
  legendDims : LegendDimensions := {}
  legendMounted : Bool := false
deriving Repr, DecidableEq

/-- `COLOR_VISION_SINGLE_ITEM` from polaris-viz-core. -/
def COLOR_VISION_SINGLE_ITEM : String := "singleItem"

/-- A color-vision event as delivered to watchers: a type tag and the
carried `detail.index`. -/
structure ColorVisionEvent where
  type : String
  index : Int
deriving Repr, DecidableEq

/-- `useWatchColorVisionEvents({type: COLOR_VISION_SINGLE_ITEM,
onIndexChange: ({detail}) => setActiveIndex(detail.index)})`
(Chart.tsx lines 126-131): the subscribed callback fires for events of
the watched type and stores the carried index in the component's
`activeIndex` state. -/
def onColorVisionEvent (e : ColorVisionEvent) (s : ChartInternalState) : ChartInternalState :=
  if e.type = COLOR_VISION_SINGLE_ITEM then { s with activeIndex := e.index } else s

/-! ## The rendered output of the donut chart -/

/-- The props handed to one rendered `Arc`.  The slice arcs receive
`index` and `activeIndex`; the empty-state placeholder does not.  `color`
is optional because `seriesColor[index]` can be out of range in JS. -/
structure ArcProps where
  index : Option Nat := none
  activeIndex : Option Int := none
  width : ℚ
  height : ℚ
  radius : ℚ
  startAngle : ℚ
  endAngle : ℚ
  color : Option Color
  cornerRadius : ℚ
  thickness : ℚ
deriving Repr, DecidableEq

/-- One `<g aria-label=... role="img">` wrapper around a slice `Arc`
(Chart.tsx lines 236-260). -/
structure SliceGroup where
  ariaLabel : String
  arc : ArcProps
deriving Repr, DecidableEq

/-- The `<g className={styles.DonutChart}>` content: either the
aria-hidden empty-state placeholder arc or the list of data slices
(Chart.tsx lines 215-263). -/
inductive ArcsContent where
  | empty (placeholder : ArcProps)
  | slices (groups : List SliceGroup)
deriving Repr, DecidableEq

/-- The props handed to `InnerValue` (Chart.tsx lines 267-277). -/
structure InnerValueProps where
  activeValue : Option ℚ
  activeIndex : Int
  totalValue : ℚ
  diameter : ℚ
deriving Repr, DecidableEq

/-- The donut area: the skeleton branch or the success fragment; in the
success fragment `arcs = none` models the `isLegendMounted && (...)` gate
rendering nothing. -/
inductive DonutContent where
  | skeleton (state : ChartState) (errorText : Option String)
  | success (arcs : Option ArcsContent) (innerValue : InnerValueProps)
deriving Repr, DecidableEq

/-- The props handed to `LegendValues` (Chart.tsx lines 183-194). -/
structure LegendValuesProps where
  activeIndex : Int
  legendFullWidth : Bool
deriving Repr, DecidableEq

/-- Which legend content the `LegendContainer` receives: the chart's
`renderLegendContentWithValues` closure, the caller's own
`renderLegendContent`, or none (Chart.tsx lines 300-304). -/
inductive LegendContent where
  | withValues (props : LegendValuesProps)
  | custom
  | default
deriving Repr, DecidableEq

/-- The dimension-change handlers a chart can wire into the legend
container. -/
inductive Handler where
  | setLegendDimensions
deriving Repr, DecidableEq

/-- Running a wired dimension-change handler against the component state:
`setLegendDimensions` stores the legend's measured dimensions. -/
def applyHandler : Handler → LegendDimensions → ChartInternalState → ChartInternalState
  | .setLegendDimensions, nd, s => { s with legendDims := nd }

/-- The props handed to `LegendContainer` (Chart.tsx lines 289-306). -/
structure LegendContainerProps where
  fullWidth : Bool
  onDimensionChange : Handler
  legendData : List LegendItem
  direction : Direction
  position : String
  maxWidth : ℚ
  enableHideOverflow : Bool
  content : LegendContent
deriving Repr, DecidableEq

/-- Everything the chart mounts: the drawable size it used, the donut
area, and the optional legend container. -/
structure ChartOutput where
  drawableHeight : ℚ
  drawableWidth : ℚ
  donut : DonutContent
  legendContainer : Option LegendContainerProps
deriving Repr, DecidableEq

/-- The result of one render: `null` (the early return), a thrown
TypeError (reading `.name` of `undefined`), or a mounted output. -/
inductive RenderResult where
  | null
  | crash
  | ok (out : ChartOutput)
deriving Repr, DecidableEq

/-! ## The render function -/

/-- JS string interpolation of a `number | null` value. -/
def numToString : Option ℚ → String
  | none => "null"
  | some v => toString v

/-- JS array indexing with a possibly negative index
(`points[activeIndex]` with `activeIndex` initially `-1`). -/
def jsIndex (l : List DataPoint) (i : Int) : Option DataPoint :=
  if i < 0 then none else l.get? i.toNat

/-- The `useLegend` call the chart makes (Chart.tsx lines 106-115), at
the chart's own arguments. -/
def chartUseLegend (props : ChartProps) (s : ChartInternalState) : UseLegendResult :=
  useLegend props.data props.dimensions props.showLegend
    (legendDirectionOf props.legendPosition)
    (getSeriesColors (seriesCountOf props.data) (useTheme props.theme))
    (if legendDirectionOf props.legendPosition = Direction.vertical
     then props.dimensions.width / 2 else 0)
    s.legendDims s.legendMounted

/-- `const diameter = Math.min(height, width);` (Chart.tsx line 137). -/
def diameterOf (props : ChartProps) (s : ChartInternalState) : ℚ :=
  min (chartUseLegend props s).height (chartUseLegend props s).width

/-- `thickness` (Chart.tsx lines 139-144). -/
def thicknessOf (props : ChartProps) (s : ChartInternalState) : ℚ :=
  if (chartUseLegend props s).height > SMALL_CHART_HEIGHT_THRESHOLD then
    min ((chartUseLegend props s).height / 10) (useTheme props.theme).arc.thickness
  else THIN_ARC_CORNER_THICKNESS

/-- `const totalValue = total || points.reduce(...)` (Chart.tsx lines
158-159): a JS `||`, so a `total` of `0` falls through to the sum. -/
def totalValueOf (props : ChartProps) : ℚ :=
  match props.total with
  | some t => if t = 0 then totalOf (flattenData props.data) else t
  | none => totalOf (flattenData props.data)

/-- The props the chart passes to `InnerValue`. -/
def innerValueOf (props : ChartProps) (s : ChartInternalState) : InnerValueProps :=
  { activeValue := (jsIndex (flattenData props.data) s.activeIndex).bind DataPoint.value
    activeIndex := s.activeIndex
    totalValue := totalValueOf props
    diameter := diameterOf props s }

/-- The aria-hidden empty-state placeholder arc (Chart.tsx lines
216-228): full circle, theme grid color. -/
def emptyStateArcOf (props : ChartProps) (s : ChartInternalState) : ArcProps :=
  { width := diameterOf props s
    height := diameterOf props s
    radius := diameterOf props s / 2
    startAngle := 0
    endAngle := FULL_CIRCLE
    color := some (useTheme props.theme).grid.color
    cornerRadius := (useTheme props.theme).arc.cornerRadius
    thickness := thicknessOf props s }

/-- The `pieChartData.map` body (Chart.tsx lines 230-262) over the
enumerated pie data:
`const color = data[index]?.color ?? seriesColor[index];`
`const name = data[index].name;` — the `.name` read throws a TypeError
when `data[index]` is `undefined`, modelled as `none` for the whole
render. -/
def renderSlices (data : List DataSeries) (seriesColor : List Color)
    (activeIndex : Int) (diameter radius cornerRadius thickness : ℚ) :
    List (Nat × PieArcDatum) → Option (List SliceGroup)
  | [] => some []
  | (index, d) :: rest => do
      let color : Option Color :=
        ((data.get? index).bind DataSeries.color).orElse fun _ => seriesColor.get? index
      let series ← data.get? index
      let label := series.name ++ ": " ++ d.data.key ++ " - " ++ numToString d.data.value
      let restOut ← renderSlices data seriesColor activeIndex diameter radius
        cornerRadius thickness rest
      return { ariaLabel := label
               arc := { index := some index
                        activeIndex := some activeIndex
                        width := diameter
                        height := diameter
                        radius := radius
                        startAngle := d.startAngle
                        endAngle := d.endAngle
                        color := color
                        cornerRadius := cornerRadius
                        thickness := thickness } } :: restOut

/-- The guarded `<g className={styles.DonutChart}>` content (Chart.tsx
lines 213-264): nothing unless `isLegendMounted`; the empty-state
placeholder when there are no pie data or every value is `0`; otherwise
the data slices.  The outer `Option` is the TypeError. -/
def arcsContentOf (props : ChartProps) (s : ChartInternalState) : Option (Option ArcsContent) :=
  if (chartUseLegend props s).isLegendMounted = false then some none
  else if (createPie (flattenData props.data)).length = 0
      ∨ ∀ p ∈ flattenData props.data, p.value = some 0 then
    some (some (.empty (emptyStateArcOf props s)))
  else
    (renderSlices props.data (getSeriesColors (seriesCountOf props.data) (useTheme props.theme))
        s.activeIndex (diameterOf props s) (diameterOf props s / 2)
        (useTheme props.theme).arc.cornerRadius (thicknessOf props s)
        (createPie (flattenData props.data)).enum).map
      fun gs => some (.slices gs)

/-- The `state === ChartState.Success ? ... : <ChartSkeleton .../>`
branch (Chart.tsx lines 205-287). -/
def renderDonutContent (props : ChartProps) (s : ChartInternalState) : Option DonutContent :=
  if props.state = ChartState.Success then
    (arcsContentOf props s).map fun a => .success a (innerValueOf props s)
  else some (.skeleton props.state props.errorText)

/-- `!renderLegendContent && showLegendValues && legendDirection ===
'vertical'` (Chart.tsx lines 197-198). -/
def shouldRenderLegendContentWithValues (props : ChartProps) : Bool :=
  !props.hasRenderLegendContent && props.showLegendValues &&
    decide (legendDirectionOf props.legendPosition = Direction.vertical)

/-- The `{showLegend && <LegendContainer ... />}` fragment (Chart.tsx
lines 289-306). -/
def computedLegendContainer (props : ChartProps) (s : ChartInternalState) :
    Option LegendContainerProps :=
  if props.showLegend then
    some { fullWidth := props.legendFullWidth
           onDimensionChange := Handler.setLegendDimensions
           legendData := (chartUseLegend props s).legend
           direction := legendDirectionOf props.legendPosition
           position := props.legendPosition
           maxWidth := if legendDirectionOf props.legendPosition = Direction.vertical
                       then props.dimensions.width / 2 else 0
           enableHideOverflow := !(props.legendPosition.contains '-')
           content :=
             if shouldRenderLegendContentWithValues props then
               .withValues { activeIndex := s.activeIndex
                             legendFullWidth := props.legendFullWidth }
             else if props.hasRenderLegendContent then .custom
             else .default }
  else none

/-- One render of the donut `Chart` component at the given props and
component state: the `if (!width || !height) return null;` early exit
(Chart.tsx lines 133-135), then the donut area and the legend
container. -/
def ChartRender (props : ChartProps) (s : ChartInternalState) : RenderResult :=
  if (chartUseLegend props s).width = 0 ∨ (chartUseLegend props s).height = 0 then .null
  else
    match renderDonutContent props s with
    | none => .crash
    | some d =>
        .ok { drawableHeight := (chartUseLegend props s).height
              drawableWidth := (chartUseLegend props s).width
              donut := d
              legendContainer := computedLegendContainer props s }

/-! ### Accessors over a render result -/

/-- Whether the render mounted output. -/
def RenderResult.isOk : RenderResult → Bool
  | .ok _ => true
  | _ => false

/-- The drawable height and width the chart used, when mounted. -/
def RenderResult.drawableSize : RenderResult → Option (ℚ × ℚ)
  | .ok out => some (out.drawableHeight, out.drawableWidth)
  | _ => none

/-- The wired legend dimension-change handler, when a legend container is
mounted. -/
def RenderResult.legendHandler : RenderResult → Option Handler
  | .ok out => out.legendContainer.map LegendContainerProps.onDimensionChange
  | _ => none

/-- The legend items handed to the legend container, when mounted. -/
def RenderResult.legendItems : RenderResult → Option (List LegendItem)
  | .ok out => out.legendContainer.map LegendContainerProps.legendData
  | _ => none

/-- The data-slice arcs, in render order (empty unless the success branch
rendered slices). -/
def RenderResult.sliceArcs : RenderResult → List ArcProps
  | .ok out =>
      match out.donut with
      | .success (some (.slices gs)) _ => gs.map SliceGroup.arc
      | _ => []
  | _ => []

/-- The `activeIndex` values handed to the rendered slice arcs. -/
def RenderResult.sliceActiveIndexes (r : RenderResult) : List (Option Int) :=
  r.sliceArcs.map ArcProps.activeIndex

/-- The `activeIndex` handed to `InnerValue`, when the success fragment
rendered. -/
def RenderResult.innerValueIndex : RenderResult → Option Int
  | .ok out =>
      match out.donut with
      | .success _ iv => some iv.activeIndex
      | _ => none
  | _ => none

/-- The `activeIndex` handed to `LegendValues`, when the chart renders
its value-bearing legend content. -/
def RenderResult.legendValuesIndex : RenderResult → Option Int
  | .ok out =>
      match out.legendContainer with
      | some lc =>
          match lc.content with
          | .withValues lv => some lv.activeIndex
          | _ => none
      | none => none
  | _ => none

/-- The empty-state placeholder arc, when the success fragment rendered
it. -/
def RenderResult.emptyStateArc : RenderResult → Option ArcProps
  | .ok out =>
      match out.donut with
      | .success (some (.empty a)) _ => some a
      | _ => none
  | _ => none

/-! ### Characterization lemmas for the render function -/

/-- Concrete two-series input used to witness C1. -/
def c1Data : List DataSeries :=
  [{ name := "A", data := [{ key := "a", value := some 1 }] },
   { name := "B", data := [{ key := "b", value := some 3 }] }]

/-! ## TooltipContent (src/unnamed/part_000) -/

/-- The `point` field of one tooltip entry. -/
structure TooltipPoint where
  label : String
  value : String
deriving Repr, DecidableEq

/-- One entry of `TooltipContentProps.data`. -/
structure TooltipData where
  name : String
  point : TooltipPoint
  color : Color
  lineStyle : String
deriving Repr, DecidableEq

/-- One rendered tooltip group: the `LinePreview` props and the two
`<p>` texts. -/
structure TooltipRow where
  previewColor : Color
  previewLineStyle : String
  label : String
  value : String
deriving Repr, DecidableEq

/-- `TooltipContent({data})`: one
`<LinePreview color lineStyle/><p>{label}</p><p>{value}</p>` group per
entry of `data`, in order, by `data.map`. -/
def TooltipContent (data : List TooltipData) : List TooltipRow :=
  data.map fun d =>
    { previewColor := d.color
      previewLineStyle := d.lineStyle
      label := d.point.label
      value := d.point.value }

/-- The row the spec expects for one entry, built from that entry's
fields only. -/
def tooltipRowOf (d : TooltipData) : TooltipRow :=
  { previewColor := d.color
    previewLineStyle := d.lineStyle
    label := d.point.label
    value := d.point.value }

/-! ## The color-vision interaction bus

Modelled from the spec: the color-vision interaction bus is "a
process-wide (module-scoped) event channel broadcasting hovered/active
index state" (`useColorVisionEvents` / `useWatchColorVisionEvents` from
`../../hooks`; their source is not in the snapshot).  The module-scoped
channel state is its subscriber registry; dispatching an event notifies
the subscribers but stores nothing in the channel, and the hovered/active
index lives in each subscribing component's own state. -/

/-- The module-scoped state of the color-vision event channel: the
subscriber registry. -/
structure ColorVisionBus where
  subscribers : List Nat
deriving Repr, DecidableEq

/-- Mounting a watcher adds its subscription to the registry. -/
def busSubscribe (id : Nat) (bus : ColorVisionBus) : ColorVisionBus :=
  { subscribers := id :: bus.subscribers }

/-- Unmounting a watcher removes its subscription again. -/
def busUnsubscribe (id : Nat) (bus : ColorVisionBus) : ColorVisionBus :=
  { subscribers := bus.subscribers.erase id }

/-- Delivering one event to the channel and one watching donut chart:
the channel broadcasts to its subscribers without storing anything, and
the chart's watcher updates the chart's own component state. -/
def deliver (p : ColorVisionBus × ChartInternalState) (e : ColorVisionEvent) :
    ColorVisionBus × ChartInternalState :=
  (p.1, onColorVisionEvent e p.2)

/-- Delivering a whole event trace. -/
def runEvents (p : ColorVisionBus × ChartInternalState)
    (es : List ColorVisionEvent) : ColorVisionBus × ChartInternalState :=
  es.foldl deliver p

/-! ## Concrete inputs for witnesses and counterexamples -/

/-- The initial component state: `activeIndex = -1`, nothing measured. -/
def initialChartState : ChartInternalState := {}

/-- A concrete single-item color-vision event carrying index 2. -/
def c2Event : ColorVisionEvent := { type := COLOR_VISION_SINGLE_ITEM, index := 2 }

/-- Concrete props used by the C2 witness. -/
def c2Props : ChartProps :=
  { data := [{ name := "A", data := [{ key := "a", value := some 1 }] }]
    showLegend := false
    showLegendValues := false
    state := ChartState.Success
    theme := "Default"
    dimensions := { height := 100, width := 100 } }

/-- Concrete props used by the C10 witness: zero height. -/
def c10Props : ChartProps :=
  { data := [{ name := "A", data := [{ key := "a", value := some 1 }] }]
    showLegend := false
    showLegendValues := false
    state := ChartState.Success
    theme := "Default"
    dimensions := { height := 0, width := 300 } }

/-- Concrete props used by the C4 witness: legend shown on the right. -/
def c4Props : ChartProps :=
  { data := [{ name := "A", data := [{ key := "a", value := some 1 }] }]
    showLegend := true
    showLegendValues := false
    state := ChartState.Success
    theme := "Default"
    dimensions := { height := 200, width := 300 } }

/-- New legend dimensions reported by the legend container in the C4
witness. -/
def c4NewDims : LegendDimensions := { height := 40, width := 80 }

/-- The slice group the chart renders for one enumerated pie datum when
the series lookup at its index succeeds (closed form of the
`pieChartData.map` body). -/
def sliceGroupOf (data : List DataSeries) (seriesColor : List Color)
    (activeIndex : Int) (diameter radius cornerRadius thickness : ℚ)
    (pr : Nat × PieArcDatum) : SliceGroup :=
  { ariaLabel := ((data.get? pr.1).getD { name := "", data := [] }).name ++ ": " ++
      pr.2.data.key ++ " - " ++ numToString pr.2.data.value
    arc := { index := some pr.1
             activeIndex := some activeIndex
             width := diameter
             height := diameter
             radius := radius
             startAngle := pr.2.startAngle
             endAngle := pr.2.endAngle
             color := ((data.get? pr.1).bind DataSeries.color).orElse
               fun _ => seriesColor.get? pr.1
             cornerRadius := cornerRadius
             thickness := thickness } }

/-- A component state in which the legend has mounted. -/
def mountedChartState : ChartInternalState := { legendMounted := true }

/-- Concrete props with one series holding two data points — the shape
on which the per-slice series lookup goes out of range. -/
def c6CrashProps : ChartProps :=
  { data := [{ name := "A"
               data := [{ key := "a", value := some 1 }, { key := "b", value := some 2 }] }]
    showLegend := false
    showLegendValues := false
    state := ChartState.Success
    theme := "Default"
    dimensions := { height := 100, width := 100 } }

/-- Concrete props with two single-point series, used to witness the
amended C6. -/
def c6OkProps : ChartProps :=
  { data := [{ name := "A", data := [{ key := "a", value := some 1 }] },
             { name := "B", color := some "#123456"
               data := [{ key := "b", value := some 3 }] }]
    showLegend := false
    showLegendValues := false
    state := ChartState.Success
    theme := "Default"
    dimensions := { height := 100, width := 100 } }

/-- One series holding two points: its flattened points outnumber the
series, used as the C8 counterexample input. -/
def c8Data : List DataSeries :=
  [{ name := "A"
     data := [{ key := "a", value := some 1 }, { key := "b", value := some 2 }] }]

/-- Concrete props in the Loading state with empty data, used as the C9
counterexample input. -/
def c9Props : ChartProps :=
  { data := []
    showLegend := false
    showLegendValues := false
    state := ChartState.Loading
    theme := "Default"
    dimensions := { height := 100, width := 100 } }

/-- Concrete success-state props whose only data point has value 0, used
to witness the amended C9. -/
def c9ZeroProps : ChartProps :=
  { data := [{ name := "A", data := [{ key := "a", value := some 0 }] }]
    showLegend := false
    showLegendValues := false
    state := ChartState.Success
    theme := "Default"
    dimensions := { height := 100, width := 100 } }

/-! ## Theorems -/

theorem pieArcsAux_map_data (k : ℚ) :
    ∀ (ps : List DataPoint) (a0 : ℚ), (pieArcsAux k a0 ps).map PieArcDatum.data = ps := by
  intro ps
  induction ps with
  | nil => intro a0; rfl
  | cons p rest ih =>
      intro a0
      simp [pieArcsAux, ih]

theorem pieArcsAux_length (k : ℚ) :
    ∀ (ps : List DataPoint) (a0 : ℚ), (pieArcsAux k a0 ps).length = ps.length := by
  intro ps
  induction ps with
  | nil => intro a0; rfl
  | cons p rest ih =>
      intro a0
      simp [pieArcsAux, ih]

theorem createPie_map_data (points : List DataPoint) :
    (createPie points).map PieArcDatum.data = points := by
  unfold createPie
  exact pieArcsAux_map_data _ points 0

theorem createPie_length (points : List DataPoint) :
    (createPie points).length = points.length := by
  unfold createPie
  exact pieArcsAux_length _ points 0

/-- Each arc's span is the span d3 computes for its own datum. -/
theorem pieArcsAux_span (k : ℚ) :
    ∀ (ps : List DataPoint) (a0 : ℚ), ∀ a ∈ pieArcsAux k a0 ps,
      a.endAngle - a.startAngle =
        (if toNum a.data.value > 0 then toNum a.data.value * k else 0) ∧
      a.value = toNum a.data.value := by
  intro ps
  induction ps with
  | nil => intro a0 a ha; simp [pieArcsAux] at ha
  | cons p rest ih =>
      intro a0 a ha
      simp only [pieArcsAux, List.mem_cons] at ha
      rcases ha with rfl | ha
      · constructor
        · simp
        · rfl
      · exact ih _ a ha

theorem pieArcsAux_chain (k : ℚ) :
    ∀ (ps : List DataPoint) (a0 : ℚ),
      anglesChain a0 (a0 + spanSum k ps) (pieArcsAux k a0 ps) := by
  intro ps
  induction ps with
  | nil => intro a0; simp [pieArcsAux, anglesChain, spanSum]
  | cons p rest ih =>
      intro a0
      refine ⟨rfl, ?_⟩
      have h := ih (a0 + (if toNum p.value > 0 then toNum p.value * k else 0))
      have harr : a0 + spanSum k (p :: rest) =
          a0 + (if toNum p.value > 0 then toNum p.value * k else 0) + spanSum k rest := by
        simp [spanSum]
        ring
      rw [harr]
      exact h

/-- Shifting the accumulator out of the positive-value fold. -/
theorem foldl_if_shift :
    ∀ (ps : List DataPoint) (a : ℚ),
      ps.foldl (fun acc p => if toNum p.value > 0 then acc + toNum p.value else acc) a =
        a + ps.foldl (fun acc p => if toNum p.value > 0 then acc + toNum p.value else acc) 0 := by
  intro ps
  induction ps with
  | nil => intro a; simp
  | cons p rest ih =>
      intro a
      simp only [List.foldl_cons]
      rw [ih, ih (if toNum p.value > 0 then 0 + toNum p.value else 0)]
      by_cases hv : toNum p.value > 0 <;> (simp [hv]; try ring)

/-- Shifting the accumulator out of the total fold. -/
theorem foldl_total_shift :
    ∀ (ps : List DataPoint) (a : ℚ),
      ps.foldl (fun acc p => toNum p.value + acc) a =
        a + ps.foldl (fun acc p => toNum p.value + acc) 0 := by
  intro ps
  induction ps with
  | nil => intro a; simp
  | cons p rest ih =>
      intro a
      simp only [List.foldl_cons]
      rw [ih, ih (toNum p.value + 0)]
      ring

theorem spanSum_eq (k : ℚ) (ps : List DataPoint)
    (h : ∀ p ∈ ps, 0 ≤ toNum p.value) :
    spanSum k ps = pieSum ps * k := by
  induction ps with
  | nil => simp [spanSum, pieSum]
  | cons p rest ih =>
      have hp : 0 ≤ toNum p.value := h p (List.mem_cons_self _ _)
      have hrest := ih (fun q hq => h q (List.mem_cons_of_mem _ hq))
      have hps : pieSum (p :: rest) =
          (if toNum p.value > 0 then toNum p.value else 0) + pieSum rest := by
        simp only [pieSum, List.foldl_cons]
        rw [foldl_if_shift]
        by_cases hv : toNum p.value > 0 <;> simp [hv, pieSum]
      rw [hps]
      simp only [spanSum, List.map_cons, List.sum_cons]
      rw [show ((rest.map fun p => if toNum p.value > 0 then toNum p.value * k else 0).sum)
            = spanSum k rest from rfl, hrest]
      by_cases hv : toNum p.value > 0 <;> (simp [hv]; try ring)

/-- Under non-negative values the d3 positive-value sum is the chart's
total. -/
theorem pieSum_eq_totalOf (ps : List DataPoint)
    (h : ∀ p ∈ ps, 0 ≤ toNum p.value) :
    pieSum ps = totalOf ps := by
  induction ps with
  | nil => rfl
  | cons p rest ih =>
      have hp : 0 ≤ toNum p.value := h p (List.mem_cons_self _ _)
      have hrest := ih (fun q hq => h q (List.mem_cons_of_mem _ hq))
      simp only [pieSum, totalOf, List.foldl_cons]
      rw [foldl_if_shift, foldl_total_shift]
      have : (if toNum p.value > 0 then (0 : ℚ) + toNum p.value else 0) = toNum p.value := by
        by_cases hv : toNum p.value > 0
        · simp [hv]
        · have : toNum p.value = 0 := le_antisymm (not_lt.mp hv) hp
          simp [this]
      rw [this]
      show toNum p.value + pieSum rest = toNum p.value + 0 + totalOf rest
      rw [hrest]
      ring

theorem chartRender_ok (props : ChartProps) (s : ChartInternalState) (out : ChartOutput)
    (h : ChartRender props s = RenderResult.ok out) :
    renderDonutContent props s = some out.donut ∧
    out.legendContainer = computedLegendContainer props s ∧
    out.drawableHeight = (chartUseLegend props s).height ∧
    out.drawableWidth = (chartUseLegend props s).width := by
  unfold ChartRender at h
  split at h
  · exact absurd h (by simp)
  · split at h
    · exact absurd h (by simp)
    · rename_i d hd
      have hout : ({ drawableHeight := (chartUseLegend props s).height
                     drawableWidth := (chartUseLegend props s).width
                     donut := d
                     legendContainer := computedLegendContainer props s } : ChartOutput) = out := by
        injection h
      subst hout
      exact ⟨hd, rfl, rfl, rfl⟩

theorem renderSlices_activeIndex (data : List DataSeries) (seriesColor : List Color)
    (ai : Int) (dia rad cr th : ℚ) :
    ∀ (l : List (Nat × PieArcDatum)) (gs : List SliceGroup),
      renderSlices data seriesColor ai dia rad cr th l = some gs →
      ∀ g ∈ gs, g.arc.activeIndex = some ai := by
  intro l
  induction l with
  | nil =>
      intro gs h g hg
      simp only [renderSlices, Option.some.injEq] at h
      subst h
      simp at hg
  | cons hd tl ih =>
      intro gs h g hg
      obtain ⟨index, d⟩ := hd
      simp only [renderSlices, Option.bind_eq_bind, Option.bind_eq_some, Option.pure_def,
        Option.some.injEq] at h
      obtain ⟨series, hser, restOut, hrest, hgs⟩ := h
      subst hgs
      rcases List.mem_cons.mp hg with rfl | hmem
      · rfl
      · exact ih restOut hrest g hmem

theorem chartRender_slice_highlight (props : ChartProps) (s : ChartInternalState) :
    ∀ x ∈ (ChartRender props s).sliceActiveIndexes, x = some s.activeIndex := by
  intro x hx
  unfold RenderResult.sliceActiveIndexes at hx
  rw [List.mem_map] at hx
  obtain ⟨a, ha, rfl⟩ := hx
  cases hr : ChartRender props s with
  | null => rw [hr] at ha; simp [RenderResult.sliceArcs] at ha
  | crash => rw [hr] at ha; simp [RenderResult.sliceArcs] at ha
  | ok out =>
      rw [hr] at ha
      obtain ⟨hdon, -, -, -⟩ := chartRender_ok props s out hr
      cases hdo : out.donut with
      | skeleton st et => simp [RenderResult.sliceArcs, hdo] at ha
      | success arcsOpt iv =>
          cases arcsOpt with
          | none => simp [RenderResult.sliceArcs, hdo] at ha
          | some ac =>
              cases ac with
              | empty pl => simp [RenderResult.sliceArcs, hdo] at ha
              | slices gs =>
                  simp only [RenderResult.sliceArcs, hdo, List.mem_map] at ha
                  obtain ⟨g, hg, rfl⟩ := ha
                  rw [hdo] at hdon
                  unfold renderDonutContent at hdon
                  split at hdon
                  · simp only [Option.map_eq_some'] at hdon
                    obtain ⟨a0, ha0, heq⟩ := hdon
                    have harcs : a0 = some (ArcsContent.slices gs) :=
                      (DonutContent.success.inj heq).1
                    rw [harcs] at ha0
                    unfold arcsContentOf at ha0
                    split at ha0
                    · simp at ha0
                    · split at ha0
                      · simp at ha0
                      · simp only [Option.map_eq_some'] at ha0
                        obtain ⟨gs0, hgs0, hsome⟩ := ha0
                        have hgs0eq : gs0 = gs :=
                          ArcsContent.slices.inj (Option.some.inj hsome)
                        rw [hgs0eq] at hgs0
                        exact renderSlices_activeIndex _ _ _ _ _ _ _ _ gs hgs0 g hg
                  · have hcontra := Option.some.inj hdon
                    simp at hcontra

theorem chartRender_innerValue_highlight (props : ChartProps) (s : ChartInternalState) :
    (ChartRender props s).innerValueIndex = none ∨
      (ChartRender props s).innerValueIndex = some s.activeIndex := by
  cases hr : ChartRender props s with
  | null => left; rfl
  | crash => left; rfl
  | ok out =>
      obtain ⟨hdon, -, -, -⟩ := chartRender_ok props s out hr
      unfold renderDonutContent at hdon
      split at hdon
      · simp only [Option.map_eq_some'] at hdon
        obtain ⟨a0, -, heq⟩ := hdon
        right
        simp [RenderResult.innerValueIndex, ← heq, innerValueOf]
      · left
        have hd : out.donut = DonutContent.skeleton props.state props.errorText :=
          (Option.some.inj hdon).symm
        simp [RenderResult.innerValueIndex, hd]

theorem chartRender_legendValues_highlight (props : ChartProps) (s : ChartInternalState) :
    (ChartRender props s).legendValuesIndex = none ∨
      (ChartRender props s).legendValuesIndex = some s.activeIndex := by
  cases hr : ChartRender props s with
  | null => left; rfl
  | crash => left; rfl
  | ok out =>
      obtain ⟨-, hleg, -, -⟩ := chartRender_ok props s out hr
      have hval : (RenderResult.ok out).legendValuesIndex =
          match computedLegendContainer props s with
          | some lc =>
              match lc.content with
              | LegendContent.withValues lv => some lv.activeIndex
              | _ => none
          | none => none := by
        simp only [RenderResult.legendValuesIndex, hleg]
      rw [hval]
      unfold computedLegendContainer
      by_cases hsl : props.showLegend = true
      · rw [if_pos hsl]
        by_cases hsv : shouldRenderLegendContentWithValues props = true
        · rw [if_pos hsv]
          right
          rfl
        · rw [if_neg hsv]
          by_cases hrc : props.hasRenderLegendContent = true
          · rw [if_pos hrc]
            left
            rfl
          · rw [if_neg hrc]
            left
            rfl
      · rw [if_neg hsl]
        left
        rfl

/-- C1: for series data whose flattened points have non-negative values
and a positive total, the pie layout produces exactly one
(startAngle, endAngle) pair per flattened point in input order (the data
field of the i-th arc is the i-th point and sorting is disabled), each
pair satisfies startAngle ≤ endAngle, each span is proportional to its
value ((end - start) * total = value * FULL_CIRCLE), and the arcs tile
the full circle from 0 to FULL_CIRCLE; the computation is a pure function
and returns the input points unmodified. -/
theorem c1_pie_angles (data : List DataSeries)
    (hnn : ∀ p ∈ flattenData data, 0 ≤ toNum p.value)
    (hpos : 0 < totalOf (flattenData data)) :
    (createPie (flattenData data)).map PieArcDatum.data = flattenData data ∧
    (∀ a ∈ createPie (flattenData data), a.startAngle ≤ a.endAngle) ∧
    (∀ a ∈ createPie (flattenData data),
        (a.endAngle - a.startAngle) * totalOf (flattenData data) =
          toNum a.data.value * FULL_CIRCLE) ∧
    anglesChain 0 FULL_CIRCLE (createPie (flattenData data)) := by
  set points := flattenData data with hpts
  have hsum : pieSum points = totalOf points := pieSum_eq_totalOf points hnn
  have hsumpos : 0 < pieSum points := by rw [hsum]; exact hpos
  have hsumne : pieSum points ≠ 0 := ne_of_gt hsumpos
  have hk : createPie points = pieArcsAux (FULL_CIRCLE / pieSum points) 0 points := by
    unfold createPie
    simp [hsumne]
  have hkpos : 0 < FULL_CIRCLE / pieSum points := by
    apply div_pos _ hsumpos
    norm_num [FULL_CIRCLE]
  refine ⟨createPie_map_data points, ?_, ?_, ?_⟩
  · intro a ha
    rw [hk] at ha
    have hspan := (pieArcsAux_span _ points 0 a ha).1
    have : 0 ≤ a.endAngle - a.startAngle := by
      rw [hspan]
      by_cases hv : toNum a.data.value > 0
      · rw [if_pos hv]
        positivity
      · simp [hv]
    linarith
  · intro a ha
    rw [hk] at ha
    have hmem : a.data ∈ points := by
      have := List.mem_map_of_mem PieArcDatum.data ha
      rwa [pieArcsAux_map_data] at this
    have hv0 : 0 ≤ toNum a.data.value := hnn _ hmem
    have hspan := (pieArcsAux_span _ points 0 a ha).1
    rw [hspan, ← hsum]
    by_cases hv : toNum a.data.value > 0
    · rw [if_pos hv]
      field_simp
    · have hz : toNum a.data.value = 0 := le_antisymm (not_lt.mp hv) hv0
      simp [hv, hz]
  · rw [hk]
    have hchain := pieArcsAux_chain (FULL_CIRCLE / pieSum points) points 0
    have heq : (0 : ℚ) + spanSum (FULL_CIRCLE / pieSum points) points = FULL_CIRCLE := by
      rw [spanSum_eq _ _ hnn]
      field_simp
    rwa [heq] at hchain

/-- Witness for C1 at a concrete two-series input. -/
theorem c1_pie_angles_witness :
    (∀ p ∈ flattenData c1Data, 0 ≤ toNum p.value) ∧
    0 < totalOf (flattenData c1Data) ∧
    ((createPie (flattenData c1Data)).map PieArcDatum.data = flattenData c1Data ∧
      (∀ a ∈ createPie (flattenData c1Data), a.startAngle ≤ a.endAngle) ∧
      (∀ a ∈ createPie (flattenData c1Data),
          (a.endAngle - a.startAngle) * totalOf (flattenData c1Data) =
            toNum a.data.value * FULL_CIRCLE) ∧
      anglesChain 0 FULL_CIRCLE (createPie (flattenData c1Data))) :=
  ⟨by decide, by norm_num [totalOf, flattenData, c1Data, toNum],
    c1_pie_angles c1Data (by decide) (by norm_num [totalOf, flattenData, c1Data, toNum])⟩

/-- C2: when a COLOR_VISION_SINGLE_ITEM color-vision event carrying index
i is received by the donut chart, its activeIndex state becomes i, and
that value is what every rendered slice Arc, the InnerValue, and the
value-bearing legend content (LegendValues) are handed — all visual
elements highlight the same index. -/
theorem c2_active_index_consistency (props : ChartProps) (s : ChartInternalState)
    (e : ColorVisionEvent) (he : e.type = COLOR_VISION_SINGLE_ITEM) :
    (onColorVisionEvent e s).activeIndex = e.index ∧
    (∀ x ∈ (ChartRender props (onColorVisionEvent e s)).sliceActiveIndexes,
        x = some e.index) ∧
    ((ChartRender props (onColorVisionEvent e s)).innerValueIndex = none ∨
      (ChartRender props (onColorVisionEvent e s)).innerValueIndex = some e.index) ∧
    ((ChartRender props (onColorVisionEvent e s)).legendValuesIndex = none ∨
      (ChartRender props (onColorVisionEvent e s)).legendValuesIndex = some e.index) := by
  have hai : (onColorVisionEvent e s).activeIndex = e.index := by
    simp [onColorVisionEvent, he]
  refine ⟨hai, ?_, ?_, ?_⟩
  · intro x hx
    rw [← hai]
    exact chartRender_slice_highlight props _ x hx
  · rw [← hai]
    exact chartRender_innerValue_highlight props _
  · rw [← hai]
    exact chartRender_legendValues_highlight props _

/-- Witness for C2 at a concrete event and concrete props. -/
theorem c2_active_index_consistency_witness :
    c2Event.type = COLOR_VISION_SINGLE_ITEM ∧
    ((onColorVisionEvent c2Event initialChartState).activeIndex = c2Event.index ∧
      (∀ x ∈ (ChartRender c2Props
          (onColorVisionEvent c2Event initialChartState)).sliceActiveIndexes,
        x = some c2Event.index) ∧
      ((ChartRender c2Props
          (onColorVisionEvent c2Event initialChartState)).innerValueIndex = none ∨
        (ChartRender c2Props
          (onColorVisionEvent c2Event initialChartState)).innerValueIndex =
            some c2Event.index) ∧
      ((ChartRender c2Props
          (onColorVisionEvent c2Event initialChartState)).legendValuesIndex = none ∨
        (ChartRender c2Props
          (onColorVisionEvent c2Event initialChartState)).legendValuesIndex =
            some c2Event.index)) :=
  ⟨rfl, c2_active_index_consistency c2Props initialChartState c2Event rfl⟩

/-- Channel state is invariant under a whole event trace. -/
theorem runEvents_bus_const (es : List ColorVisionEvent) :
    ∀ p : ColorVisionBus × ChartInternalState, (runEvents p es).1 = p.1 := by
  induction es with
  | nil => intro p; rfl
  | cons e rest ih =>
      intro p
      show (runEvents (deliver p e) rest).1 = p.1
      rw [ih (deliver p e)]
      rfl

/-- The component state after a trace does not depend on the channel
state. -/
theorem runEvents_state_indep (es : List ColorVisionEvent) :
    ∀ (bus bus' : ColorVisionBus) (s : ChartInternalState),
      (runEvents (bus, s) es).2 = (runEvents (bus', s) es).2 := by
  induction es with
  | nil => intro bus bus' s; rfl
  | cons e rest ih =>
      intro bus bus' s
      show (runEvents (bus, onColorVisionEvent e s) rest).2 =
        (runEvents (bus', onColorVisionEvent e s) rest).2
      exact ih bus bus' (onColorVisionEvent e s)

/-- C5: across any sequence of color-vision events the module-scoped
channel retains nothing (its state after the trace equals its state
before, and the chart's resulting component state is independent of the
channel state), subscribing and then unsubscribing a watcher leaves the
channel exactly as it was (nothing outlives the component instance), and
the hovered/active index lives only in the chart's component-local
state, whose only change under an event is its activeIndex field. -/
theorem c5_no_persistent_module_state (bus bus' : ColorVisionBus)
    (s : ChartInternalState) (es : List ColorVisionEvent) (id : Nat)
    (e : ColorVisionEvent) :
    (runEvents (bus, s) es).1 = bus ∧
    (runEvents (bus, s) es).2 = (runEvents (bus', s) es).2 ∧
    busUnsubscribe id (busSubscribe id bus) = bus ∧
    (onColorVisionEvent e s).legendDims = s.legendDims ∧
    (onColorVisionEvent e s).legendMounted = s.legendMounted := by
  refine ⟨runEvents_bus_const es (bus, s), runEvents_state_indep es bus bus' s, ?_, ?_, ?_⟩
  · cases bus with
    | mk subs => simp [busSubscribe, busUnsubscribe]
  · unfold onColorVisionEvent
    split <;> rfl
  · unfold onColorVisionEvent
    split <;> rfl

/-- C7: TooltipContent is a pure presentational formatter: it renders
exactly one (line preview, label, value) group per entry, in input
order, each group built only from the fields of its own entry. -/
theorem c7_tooltip_content (data : List TooltipData) (i : Nat) :
    TooltipContent data = data.map tooltipRowOf ∧
    (TooltipContent data).length = data.length ∧
    (TooltipContent data).get? i = (data.get? i).map tooltipRowOf := by
  refine ⟨rfl, ?_, ?_⟩
  · simp [TooltipContent]
  · show (data.map tooltipRowOf).get? i = (data.get? i).map tooltipRowOf
    simp [List.get?_map]

/-- C10: whenever the width or the height returned by the legend
negotiation is 0, the chart returns null and renders nothing, regardless
of state, data or legend settings. -/
theorem c10_null_on_zero_size (props : ChartProps) (s : ChartInternalState)
    (h : (chartUseLegend props s).width = 0 ∨ (chartUseLegend props s).height = 0) :
    ChartRender props s = RenderResult.null := by
  unfold ChartRender
  rw [if_pos h]

/-- C3: the theme/color resolver is deterministic: for every theme name
and every series count (the data length clamped below by 1), two calls
with the same name and count return the same ordered list of colors, the
list has exactly `count` colors, and it provides a color at every series
index below the count. -/
theorem c3_series_colors_deterministic (name1 name2 : String)
    (data1 data2 : List DataSeries) (i : Nat)
    (hn : name1 = name2) (hc : data1.length = data2.length)
    (hi : i < seriesCountOf data1) :
    getSeriesColors (seriesCountOf data1) (useTheme name1) =
      getSeriesColors (seriesCountOf data2) (useTheme name2) ∧
    (getSeriesColors (seriesCountOf data1) (useTheme name1)).length =
      seriesCountOf data1 ∧
    ((getSeriesColors (seriesCountOf data1) (useTheme name1)).get? i).isSome = true := by
  subst hn
  have hcount : seriesCountOf data1 = seriesCountOf data2 := by
    unfold seriesCountOf
    rw [hc]
  have hlen : (getSeriesColors (seriesCountOf data1) (useTheme name1)).length =
      seriesCountOf data1 := by
    simp [getSeriesColors]
  refine ⟨by rw [hcount], hlen, ?_⟩
  have hilt : i < (getSeriesColors (seriesCountOf data1) (useTheme name1)).length := by
    rw [hlen]
    exact hi
  rw [List.get?_eq_get hilt]
  rfl

/-- Witness for C3 at a concrete theme name and two-series data. -/
theorem c3_series_colors_deterministic_witness :
    "Light" = "Light" ∧ c1Data.length = c1Data.length ∧ 1 < seriesCountOf c1Data ∧
    (getSeriesColors (seriesCountOf c1Data) (useTheme "Light") =
        getSeriesColors (seriesCountOf c1Data) (useTheme "Light") ∧
      (getSeriesColors (seriesCountOf c1Data) (useTheme "Light")).length =
        seriesCountOf c1Data ∧
      ((getSeriesColors (seriesCountOf c1Data) (useTheme "Light")).get? 1).isSome = true) :=
  ⟨rfl, rfl, by decide,
    c3_series_colors_deterministic "Light" "Light" c1Data c1Data 1 rfl rfl (by decide)⟩

/-- C4: the legend layout negotiation is a measure-then-render feedback
loop: a mounted render's drawable height and width are the ones useLegend
computed from the current legend-measurement state (not the raw
dimensions prop), its legend items are useLegend's items, and with
showLegend true the rendered LegendContainer's onDimensionChange handler
is the chart's setLegendDimensions, so running the wired handler with
newly measured legend dimensions stores them in the component state for
the next layout pass. -/
theorem c4_legend_feedback (props : ChartProps) (s : ChartInternalState)
    (nd : LegendDimensions)
    (hleg : props.showLegend = true)
    (hok : (ChartRender props s).isOk = true) :
    (ChartRender props s).drawableSize =
      some ((chartUseLegend props s).height, (chartUseLegend props s).width) ∧
    (ChartRender props s).legendItems = some (chartUseLegend props s).legend ∧
    (ChartRender props s).legendHandler = some Handler.setLegendDimensions ∧
    (applyHandler Handler.setLegendDimensions nd s).legendDims = nd := by
  cases hr : ChartRender props s with
  | null =>
      rw [hr] at hok
      exact absurd hok (by simp [RenderResult.isOk])
  | crash =>
      rw [hr] at hok
      exact absurd hok (by simp [RenderResult.isOk])
  | ok out =>
      obtain ⟨-, hlc, hh, hw⟩ := chartRender_ok props s out hr
      refine ⟨?_, ?_, ?_, rfl⟩
      · simp [RenderResult.drawableSize, hh, hw]
      · simp [RenderResult.legendItems, hlc, computedLegendContainer, hleg]
      · simp [RenderResult.legendHandler, hlc, computedLegendContainer, hleg]

/-- Witness for C4 at concrete props with the legend shown. -/
theorem c4_legend_feedback_witness :
    c4Props.showLegend = true ∧
    (ChartRender c4Props initialChartState).isOk = true ∧
    ((ChartRender c4Props initialChartState).drawableSize =
        some ((chartUseLegend c4Props initialChartState).height,
          (chartUseLegend c4Props initialChartState).width) ∧
      (ChartRender c4Props initialChartState).legendItems =
        some (chartUseLegend c4Props initialChartState).legend ∧
      (ChartRender c4Props initialChartState).legendHandler =
        some Handler.setLegendDimensions ∧
      (applyHandler Handler.setLegendDimensions c4NewDims
          initialChartState).legendDims = c4NewDims) :=
  ⟨rfl, by norm_num [RenderResult.isOk, ChartRender, chartUseLegend, useLegend,
      renderDonutContent, arcsContentOf, legendDirectionOf, c4Props,
      initialChartState, min_def, max_def],
    c4_legend_feedback c4Props initialChartState c4NewDims rfl
      (by norm_num [RenderResult.isOk, ChartRender, chartUseLegend, useLegend,
        renderDonutContent, arcsContentOf, legendDirectionOf, c4Props,
        initialChartState, min_def, max_def])⟩

/-- Witness for C10 at concrete props with zero height. -/
theorem c10_null_on_zero_size_witness :
    ((chartUseLegend c10Props initialChartState).width = 0 ∨
      (chartUseLegend c10Props initialChartState).height = 0) ∧
    ChartRender c10Props initialChartState = RenderResult.null :=
  ⟨Or.inr rfl, c10_null_on_zero_size c10Props initialChartState (Or.inr rfl)⟩

/-- Folding series concatenation from any accumulator. -/
theorem foldl_flatten_aux :
    ∀ (data : List DataSeries) (acc : List DataPoint),
      data.foldl (fun prev s => prev ++ s.data) acc =
        acc ++ data.foldl (fun prev s => prev ++ s.data) [] := by
  intro data
  induction data with
  | nil => intro acc; simp
  | cons s rest ih =>
      intro acc
      simp only [List.foldl_cons, List.nil_append]
      rw [ih (acc ++ s.data), ih s.data, List.append_assoc]

/-- Flattening a cons of series. -/
theorem flattenData_cons (s : DataSeries) (rest : List DataSeries) :
    flattenData (s :: rest) = s.data ++ flattenData rest := by
  unfold flattenData
  simp only [List.foldl_cons, List.nil_append]
  exact foldl_flatten_aux rest s.data

/-- With one point per series, there are as many flattened points as
series. -/
theorem flattenData_length_one (data : List DataSeries)
    (hone : ∀ ser ∈ data, ser.data.length = 1) :
    (flattenData data).length = data.length := by
  induction data with
  | nil => rfl
  | cons s rest ih =>
      rw [flattenData_cons, List.length_append,
        hone s (List.mem_cons_self _ _),
        ih (fun q hq => hone q (List.mem_cons_of_mem _ hq))]
      simp [Nat.add_comm]

/-- When every index the pie data mentions has a series, the slice
rendering succeeds and produces exactly the closed-form groups. -/
theorem renderSlices_eq_map (data : List DataSeries) (seriesColor : List Color)
    (ai : Int) (dia rad cr th : ℚ) :
    ∀ l : List (Nat × PieArcDatum),
      (∀ pr ∈ l, (data.get? pr.1).isSome = true) →
      renderSlices data seriesColor ai dia rad cr th l =
        some (l.map (sliceGroupOf data seriesColor ai dia rad cr th)) := by
  intro l
  induction l with
  | nil => intro h; rfl
  | cons hd tl ih =>
      intro h
      obtain ⟨index, d⟩ := hd
      obtain ⟨series, hser⟩ :=
        Option.isSome_iff_exists.mp (h (index, d) (List.mem_cons_self _ _))
      have hrest := ih fun pr hpr => h pr (List.mem_cons_of_mem _ hpr)
      have hser2 : data[index]? = some series := by
        rw [← List.get?_eq_getElem?]
        exact hser
      simp only [renderSlices, hser, Option.bind_eq_bind, Option.some_bind, hrest,
        List.map_cons, Option.pure_def, Option.some.injEq]
      simp [sliceGroupOf, hser2]

/-- In the mounted, non-empty, not-all-zero success case the arcs content
is the slice list. -/
theorem arcsContent_slices (props : ChartProps) (s : ChartInternalState)
    (hmounted : (chartUseLegend props s).isLegendMounted = true)
    (hne : (createPie (flattenData props.data)).length ≠ 0)
    (hnz : ¬ ∀ p ∈ flattenData props.data, p.value = some 0)
    (hall : ∀ pr ∈ (createPie (flattenData props.data)).enum,
      (props.data.get? pr.1).isSome = true) :
    arcsContentOf props s = some (some (ArcsContent.slices
      (((createPie (flattenData props.data)).enum).map
        (sliceGroupOf props.data
          (getSeriesColors (seriesCountOf props.data) (useTheme props.theme))
          s.activeIndex (diameterOf props s) (diameterOf props s / 2)
          (useTheme props.theme).arc.cornerRadius (thicknessOf props s))))) := by
  unfold arcsContentOf
  rw [if_neg (by simp [hmounted]), if_neg (not_or.mpr ⟨hne, hnz⟩),
    renderSlices_eq_map _ _ _ _ _ _ _ _ hall, Option.map_some']

/-- In the mounted, non-empty, not-all-zero success case with nonzero
drawable size, the whole render is the slice output. -/
theorem chartRender_success_slices (props : ChartProps) (s : ChartInternalState)
    (hsz : ¬ ((chartUseLegend props s).width = 0 ∨ (chartUseLegend props s).height = 0))
    (hstate : props.state = ChartState.Success)
    (hmounted : (chartUseLegend props s).isLegendMounted = true)
    (hne : (createPie (flattenData props.data)).length ≠ 0)
    (hnz : ¬ ∀ p ∈ flattenData props.data, p.value = some 0)
    (hall : ∀ pr ∈ (createPie (flattenData props.data)).enum,
      (props.data.get? pr.1).isSome = true) :
    ChartRender props s = RenderResult.ok
      { drawableHeight := (chartUseLegend props s).height
        drawableWidth := (chartUseLegend props s).width
        donut := DonutContent.success
          (some (ArcsContent.slices
            (((createPie (flattenData props.data)).enum).map
              (sliceGroupOf props.data
                (getSeriesColors (seriesCountOf props.data) (useTheme props.theme))
                s.activeIndex (diameterOf props s) (diameterOf props s / 2)
                (useTheme props.theme).arc.cornerRadius (thicknessOf props s)))))
          (innerValueOf props s)
        legendContainer := computedLegendContainer props s } := by
  unfold ChartRender
  rw [if_neg hsz]
  unfold renderDonutContent
  rw [if_pos hstate, arcsContent_slices props s hmounted hne hnz hall, Option.map_some']

/-- C6 counterexample: a success-state, mounted, nonzero-size render with
one series holding two nonzero data points throws a TypeError (the
per-slice series lookup runs off the end of `data`), so it does not
render one Arc per flattened data point. -/
theorem c6_counterexample :
    c6CrashProps.state = ChartState.Success ∧
    (flattenData c6CrashProps.data).length = 2 ∧
    (¬ ∀ p ∈ flattenData c6CrashProps.data, p.value = some 0) ∧
    ChartRender c6CrashProps mountedChartState = RenderResult.crash :=
  ⟨rfl, by decide, by decide, by decide⟩

/-- C6 (amended): in the success state with a non-empty, not-all-zero
data set in which every series holds exactly one data point, with the
legend mounted and a nonzero drawable size, the chart renders exactly one
Arc per flattened data point, in order, each receiving the pie-computed
startAngle and endAngle of its point, and each colored with its series'
own color when one is set, otherwise with the theme series color at its
index. -/
theorem c6_one_arc_per_point (props : ChartProps) (s : ChartInternalState)
    (hstate : props.state = ChartState.Success)
    (hone : ∀ ser ∈ props.data, ser.data.length = 1)
    (hnempty : props.data ≠ [])
    (hnz : ¬ ∀ p ∈ flattenData props.data, p.value = some 0)
    (hmounted : (chartUseLegend props s).isLegendMounted = true)
    (hsz : ¬ ((chartUseLegend props s).width = 0 ∨ (chartUseLegend props s).height = 0)) :
    (ChartRender props s).sliceArcs.length = (flattenData props.data).length ∧
    (∀ i : Nat, ((ChartRender props s).sliceArcs.get? i).map ArcProps.startAngle =
      ((createPie (flattenData props.data)).get? i).map PieArcDatum.startAngle) ∧
    (∀ i : Nat, ((ChartRender props s).sliceArcs.get? i).map ArcProps.endAngle =
      ((createPie (flattenData props.data)).get? i).map PieArcDatum.endAngle) ∧
    (∀ (i : Nat) (a : ArcProps) (ser : DataSeries),
      (ChartRender props s).sliceArcs.get? i = some a →
      props.data.get? i = some ser →
      a.color = ser.color.orElse fun _ =>
        (getSeriesColors (seriesCountOf props.data) (useTheme props.theme)).get? i) := by
  have hlen1 : (flattenData props.data).length = props.data.length :=
    flattenData_length_one props.data hone
  have hne : (createPie (flattenData props.data)).length ≠ 0 := by
    rw [createPie_length, hlen1]
    intro h0
    exact hnempty (List.length_eq_zero.mp h0)
  have hall : ∀ pr ∈ (createPie (flattenData props.data)).enum,
      (props.data.get? pr.1).isSome = true := by
    intro pr hpr
    have h1 := List.fst_lt_of_mem_enum hpr
    rw [createPie_length, hlen1] at h1
    rw [List.get?_eq_get h1]
    rfl
  have hr := chartRender_success_slices props s hsz hstate hmounted hne hnz hall
  have hsl : (ChartRender props s).sliceArcs =
      ((createPie (flattenData props.data)).enum).map
        (fun pr => (sliceGroupOf props.data
          (getSeriesColors (seriesCountOf props.data) (useTheme props.theme))
          s.activeIndex (diameterOf props s) (diameterOf props s / 2)
          (useTheme props.theme).arc.cornerRadius (thicknessOf props s) pr).arc) := by
    rw [hr]
    simp [RenderResult.sliceArcs, List.map_map, Function.comp]
  refine ⟨?_, ?_, ?_, ?_⟩
  · rw [hsl]
    simp [List.enum_length, createPie_length]
  · intro i
    rw [hsl, List.get?_map, List.get?_enum]
    cases hgi : (createPie (flattenData props.data)).get? i <;> simp [hgi, sliceGroupOf]
  · intro i
    rw [hsl, List.get?_map, List.get?_enum]
    cases hgi : (createPie (flattenData props.data)).get? i <;> simp [hgi, sliceGroupOf]
  · intro i a ser hga hser
    rw [hsl, List.get?_map, List.get?_enum] at hga
    cases hgi : (createPie (flattenData props.data)).get? i with
    | none => rw [hgi] at hga; simp at hga
    | some d =>
        rw [hgi] at hga
        simp only [Option.map_some'] at hga
        have ha : a = (sliceGroupOf props.data
            (getSeriesColors (seriesCountOf props.data) (useTheme props.theme))
            s.activeIndex (diameterOf props s) (diameterOf props s / 2)
            (useTheme props.theme).arc.cornerRadius (thicknessOf props s) (i, d)).arc :=
          (Option.some.inj hga).symm
        have hser2 : props.data[i]? = some ser := by
          rw [← List.get?_eq_getElem?]
          exact hser
        rw [ha]
        simp [sliceGroupOf, hser2]

/-- Witness for the amended C6 at two concrete single-point series. -/
theorem c6_one_arc_per_point_witness :
    c6OkProps.state = ChartState.Success ∧
    (∀ ser ∈ c6OkProps.data, ser.data.length = 1) ∧
    c6OkProps.data ≠ [] ∧
    (¬ ∀ p ∈ flattenData c6OkProps.data, p.value = some 0) ∧
    (chartUseLegend c6OkProps mountedChartState).isLegendMounted = true ∧
    (¬ ((chartUseLegend c6OkProps mountedChartState).width = 0 ∨
      (chartUseLegend c6OkProps mountedChartState).height = 0)) ∧
    ((ChartRender c6OkProps mountedChartState).sliceArcs.length =
        (flattenData c6OkProps.data).length ∧
      (∀ i : Nat, ((ChartRender c6OkProps mountedChartState).sliceArcs.get? i).map
          ArcProps.startAngle =
        ((createPie (flattenData c6OkProps.data)).get? i).map PieArcDatum.startAngle) ∧
      (∀ i : Nat, ((ChartRender c6OkProps mountedChartState).sliceArcs.get? i).map
          ArcProps.endAngle =
        ((createPie (flattenData c6OkProps.data)).get? i).map PieArcDatum.endAngle) ∧
      (∀ (i : Nat) (a : ArcProps) (ser : DataSeries),
        (ChartRender c6OkProps mountedChartState).sliceArcs.get? i = some a →
        c6OkProps.data.get? i = some ser →
        a.color = ser.color.orElse fun _ =>
          (getSeriesColors (seriesCountOf c6OkProps.data)
            (useTheme c6OkProps.theme)).get? i)) :=
  ⟨rfl, by decide, by decide, by decide, rfl, by decide,
    c6_one_arc_per_point c6OkProps mountedChartState rfl (by decide) (by decide)
      (by decide) rfl (by decide)⟩

/-- C8 counterexample: with one series holding two data points the pie
layout produces slice index 1, at which the series lookup `data[1]` is
undefined, so the accessibility-label read fails there. -/
theorem c8_counterexample :
    1 < (createPie (flattenData c8Data)).length ∧ (c8Data.get? 1).isSome = false :=
  ⟨by decide, by decide⟩

/-- C8 (amended): when every series holds exactly one data point, every
slice index produced by the pie layout has a defined series lookup, and
the whole slice rendering — including every accessibility label — succeeds. -/
theorem c8_safe_lookup (data : List DataSeries) (i : Nat) (cols : List Color)
    (ai : Int) (dia rad cr th : ℚ)
    (hone : ∀ ser ∈ data, ser.data.length = 1)
    (hi : i < (createPie (flattenData data)).length) :
    (data.get? i).isSome = true ∧
    (renderSlices data cols ai dia rad cr th
      (createPie (flattenData data)).enum).isSome = true := by
  have hlen : (createPie (flattenData data)).length = data.length := by
    rw [createPie_length, flattenData_length_one data hone]
  have hall : ∀ pr ∈ (createPie (flattenData data)).enum,
      (data.get? pr.1).isSome = true := by
    intro pr hpr
    have h1 : pr.1 < (createPie (flattenData data)).length := List.fst_lt_of_mem_enum hpr
    have h2 : pr.1 < data.length := by rw [← hlen]; exact h1
    rw [List.get?_eq_get h2]
    rfl
  constructor
  · have hid : i < data.length := by rw [← hlen]; exact hi
    rw [List.get?_eq_get hid]
    rfl
  · rw [renderSlices_eq_map data cols ai dia rad cr th _ hall]
    rfl

/-- Witness for the amended C8 at the concrete two-series input. -/
theorem c8_safe_lookup_witness :
    (∀ ser ∈ c1Data, ser.data.length = 1) ∧
    1 < (createPie (flattenData c1Data)).length ∧
    ((c1Data.get? 1).isSome = true ∧
      (renderSlices c1Data [] (-1) 0 0 0 0
        (createPie (flattenData c1Data)).enum).isSome = true) :=
  ⟨by decide, by decide, c8_safe_lookup c1Data 1 [] (-1) 0 0 0 0 (by decide) (by decide)⟩

/-- C9 counterexample: in the Loading state with empty data the chart
mounts the skeleton and no aria-hidden placeholder Arc at all, so the
empty-data behaviour the claim states does not hold unconditionally. -/
theorem c9_counterexample :
    flattenData c9Props.data = [] ∧
    (ChartRender c9Props initialChartState).isOk = true ∧
    (ChartRender c9Props initialChartState).emptyStateArc = none :=
  ⟨by decide, by decide, by decide⟩

/-- C9 (amended): in the success state, with the legend mounted and a
nonzero drawable size, if the flattened data points are empty or every
point's value equals 0, the chart renders exactly one aria-hidden
placeholder Arc spanning the full circle (startAngle 0, endAngle
FULL_CIRCLE) in the theme grid color, and renders no data slices. -/
theorem c9_empty_placeholder (props : ChartProps) (s : ChartInternalState)
    (hstate : props.state = ChartState.Success)
    (hmounted : (chartUseLegend props s).isLegendMounted = true)
    (hsz : ¬ ((chartUseLegend props s).width = 0 ∨ (chartUseLegend props s).height = 0))
    (hempty : flattenData props.data = [] ∨ ∀ p ∈ flattenData props.data, p.value = some 0) :
    (ChartRender props s).emptyStateArc = some (emptyStateArcOf props s) ∧
    (emptyStateArcOf props s).startAngle = 0 ∧
    (emptyStateArcOf props s).endAngle = FULL_CIRCLE ∧
    (emptyStateArcOf props s).color = some (useTheme props.theme).grid.color ∧
    (ChartRender props s).sliceArcs = [] := by
  have hcond : (createPie (flattenData props.data)).length = 0 ∨
      ∀ p ∈ flattenData props.data, p.value = some 0 := by
    rcases hempty with h | h
    · left
      rw [createPie_length, h]
      rfl
    · right
      exact h
  have harc : arcsContentOf props s =
      some (some (ArcsContent.empty (emptyStateArcOf props s))) := by
    unfold arcsContentOf
    rw [if_neg (by simp [hmounted]), if_pos hcond]
  have hdon : renderDonutContent props s =
      some (DonutContent.success (some (ArcsContent.empty (emptyStateArcOf props s)))
        (innerValueOf props s)) := by
    unfold renderDonutContent
    rw [if_pos hstate, harc, Option.map_some']
  have hr : ChartRender props s = RenderResult.ok
      { drawableHeight := (chartUseLegend props s).height
        drawableWidth := (chartUseLegend props s).width
        donut := DonutContent.success (some (ArcsContent.empty (emptyStateArcOf props s)))
          (innerValueOf props s)
        legendContainer := computedLegendContainer props s } := by
    unfold ChartRender
    rw [if_neg hsz, hdon]
  rw [hr]
  exact ⟨rfl, rfl, rfl, rfl, rfl⟩

/-- Witness for the amended C9 at a concrete all-zero input. -/
theorem c9_empty_placeholder_witness :
    c9ZeroProps.state = ChartState.Success ∧
    (chartUseLegend c9ZeroProps mountedChartState).isLegendMounted = true ∧
    (¬ ((chartUseLegend c9ZeroProps mountedChartState).width = 0 ∨
      (chartUseLegend c9ZeroProps mountedChartState).height = 0)) ∧
    (flattenData c9ZeroProps.data = [] ∨
      ∀ p ∈ flattenData c9ZeroProps.data, p.value = some 0) ∧
    ((ChartRender c9ZeroProps mountedChartState).emptyStateArc =
        some (emptyStateArcOf c9ZeroProps mountedChartState) ∧
      (emptyStateArcOf c9ZeroProps mountedChartState).startAngle = 0 ∧
      (emptyStateArcOf c9ZeroProps mountedChartState).endAngle = FULL_CIRCLE ∧
      (emptyStateArcOf c9ZeroProps mountedChartState).color =
        some (useTheme c9ZeroProps.theme).grid.color ∧
      (ChartRender c9ZeroProps mountedChartState).sliceArcs = []) :=
  ⟨rfl, rfl, by decide, Or.inr (by decide),
    c9_empty_placeholder c9ZeroProps mountedChartState rfl rfl (by decide)
      (Or.inr (by decide))⟩

end PolarisViz
